import Mathlib

/-
Verification of the Shipyard interview system core against its specification.
The Python source is shallowly embedded: dictionaries become insertion-ordered
association lists (Python dict semantics: assignment updates a key in place or
appends a fresh key at the end; iteration follows insertion order), fallible
methods return Except, and the external text-generation oracle is represented
by scripted outcomes of type Except String String (error = OracleError raised
by the transport, ok = the raw response text).
-/

/-- PyVal models the small set of Python values that flow through the interview
state: None, strings, and integers. -/
inductive PyVal where
  | pyNone : PyVal
  | pyStr : String → PyVal
  | pyInt : Int → PyVal
deriving DecidableEq

/-- Python str() applied to a PyVal, as used by str.format interpolation. -/
def pyToString : PyVal → String
  | .pyNone => "None"
  | .pyStr s => s
  | .pyInt n => toString n

/-- Lookup in an insertion-ordered association list (Python `d.get(k)` / `k in d`). -/
def alGet {α : Type} : List (String × α) → String → Option α
  | [], _ => none
  | p :: rest, k => if p.1 = k then some p.2 else alGet rest k

/-- Assignment `d[k] = v` on an insertion-ordered association list: an existing
key keeps its position and gets the new value; a new key is appended at the end. -/
def alSet {α : Type} : List (String × α) → String → α → List (String × α)
  | [], k, v => [(k, v)]
  | p :: rest, k, v => if p.1 = k then (p.1, v) :: rest else p :: alSet rest k v

/-- Python str.upper on a string, character by character. -/
def strUpper (s : String) : String :=
  String.mk (s.data.map Char.toUpper)

/-- Python str.lower on a string, character by character. -/
def strLower (s : String) : String :=
  String.mk (s.data.map Char.toLower)

/-- Strip leading and trailing whitespace from a character list. -/
def trimChars (cs : List Char) : List Char :=
  ((cs.dropWhile Char.isWhitespace).reverse.dropWhile Char.isWhitespace).reverse

/-- Python str.strip: remove leading and trailing whitespace. -/
def strTrim (s : String) : String :=
  String.mk (trimChars s.data)

/-- Whether the character list starting here begins with the pattern. -/
def charsStartWith : List Char → List Char → Bool
  | _, [] => true
  | [], _ :: _ => false
  | c :: cs, d :: ds => c == d && charsStartWith cs ds

/-- Whether the pattern occurs as a contiguous run inside the character list. -/
def charsHasSub : List Char → List Char → Bool
  | [], pat => pat.isEmpty
  | c :: cs, pat => charsStartWith (c :: cs) pat || charsHasSub cs pat

/-- Python `pat in s` substring membership. -/
def strContains (s pat : String) : Bool :=
  charsHasSub s.data pat.data

/-- Auxiliary for clean_user_input: collapse runs of whitespace into a single
space. The Bool flag records whether the previous character was whitespace. -/
def collapseWsAux : Bool → List Char → List Char
  | _, [] => []
  | prevWs, c :: cs =>
    if c.isWhitespace then
      if prevWs then collapseWsAux true cs else ' ' :: collapseWsAux true cs
    else c :: collapseWsAux false cs

/-- Embeds utils.helpers.clean_user_input: empty input maps to "", otherwise
strip leading/trailing whitespace and collapse internal whitespace runs
(re.sub of one-or-more whitespace by a single space on the stripped string). -/
def clean_user_input (s : String) : String :=
  if s.data.isEmpty then "" else String.mk (collapseWsAux false (trimChars s.data))

/-- Embeds utils.helpers.needs_follow_up_llm: the classifier invokes the oracle
and reports follow-up exactly when the raw response, upper-cased, contains
FOLLOW_UP_NEEDED; any oracle exception yields False (complete). The two text
arguments only shape the prompt sent to the oracle. -/
def needs_follow_up_llm (user_answer question : String)
    (oracle : Except String String) : Bool :=
  match oracle with
  | .ok content => strContains (strUpper content) "FOLLOW_UP_NEEDED"
  | .error _ => false

/-- Embeds utils.helpers.is_skip_request_llm: skip exactly when the raw oracle
response, upper-cased, contains SKIP; any oracle exception yields False
(assume the user wants to answer). -/
def is_skip_request_llm (user_answer : String)
    (oracle : Except String String) : Bool :=
  match oracle with
  | .ok content => strContains (strUpper content) "SKIP"
  | .error _ => false

/-- Embeds utils.helpers.extract_expertise_level_llm: the upper-cased, stripped
oracle response must be exactly NOVICE, INTERMEDIATE, or ADVANCED, in which
case its lower-cased form is returned; anything else, or an oracle exception,
yields none. -/
def extract_expertise_level_llm (user_input : String)
    (oracle : Except String String) : Option String :=
  match oracle with
  | .ok content =>
    let result_upper := strTrim (strUpper content)
    if result_upper = "NOVICE" ∨ result_upper = "INTERMEDIATE" ∨ result_upper = "ADVANCED" then
      some (strLower result_upper)
    else none
  | .error _ => none

/-- Embeds utils.helpers.assess_technical_complexity_llm: the upper-cased,
stripped oracle response must be exactly LOW, MEDIUM, or HIGH, in which case
its lower-cased form is returned; anything else, or an oracle exception,
yields the default "medium". -/
def assess_technical_complexity_llm (text : String)
    (oracle : Except String String) : String :=
  match oracle with
  | .ok content =>
    let result_upper := strTrim (strUpper content)
    if result_upper = "LOW" ∨ result_upper = "MEDIUM" ∨ result_upper = "HIGH" then
      strLower result_upper
    else "medium"
  | .error _ => "medium"

/-- One transcript message: a (role, content) pair. -/
structure Message where
  role : String
  content : String
deriving DecidableEq

/-- One entry of the all_conversations debugging log. -/
structure ConvEntry where
  agent : String
  role : String
  content : String
deriving DecidableEq

/-- The inner `state` dictionary that initialize_state installs: user profile,
current document, the all_conversations debug log, and the follow-up counters
keyed by "pillar.topic". -/
structure StateBundle where
  user_profile : List (String × PyVal)
  current_document : List (String × String)
  all_conversations : List ConvEntry
  follow_up_counts : List (String × Nat)
deriving DecidableEq

/-- Embeds the InterviewState dataclass: per-pillar chat history, the inner
state bundle, and the per-pillar summaries. -/
structure InterviewState where
  chat_history : List (String × List Message)
  state : StateBundle
  summaries : List (String × List (String × PyVal))
deriving DecidableEq

/-- Embeds StateManager: its only field is an optional InterviewState, None
until initialization. -/
structure StateManager where
  state : Option InterviewState
deriving DecidableEq

/-- Embeds StateManager.__init__: the manager starts with no state. -/
def newStateManager : StateManager := ⟨none⟩

/-- Embeds StateManager.initialize_state (renamed init_state): installs a fresh
InterviewState whose user profile has the three keys set to None, with empty
document, conversation log, follow-up counters, and the four pillar summary
slots initialized to empty dictionaries. -/
def init_state : StateManager :=
  ⟨some
    { chat_history := []
      state :=
        { user_profile :=
            [("expertise_level", .pyNone), ("project_description", .pyNone),
             ("gauged_complexity", .pyNone)]
          current_document := []
          all_conversations := []
          follow_up_counts := [] }
      summaries :=
        [("profiler", []), ("business", []), ("app", []), ("tribal", [])] }⟩

/-- Embeds StateManager.get_chat_history: with no state it returns the empty
list; otherwise it ensures the pillar key exists and returns that pillar's
transcript together with the (possibly key-extended) manager. -/
def get_chat_history (m : StateManager) (pillar_name : String) :
    List Message × StateManager :=
  match m.state with
  | none => ([], m)
  | some s =>
    let hist := (alGet s.chat_history pillar_name).getD []
    (hist, ⟨some { s with chat_history := alSet s.chat_history pillar_name hist }⟩)

/-- Embeds StateManager.add_to_chat_history: raises ValueError when no state is
initialized; otherwise appends the (role, content) message to the pillar's
transcript and mirrors it into all_conversations. -/
def add_to_chat_history (m : StateManager) (pillar_name role content : String) :
    Except String StateManager :=
  match m.state with
  | none => .error "State not initialized"
  | some s =>
    let hist := (alGet s.chat_history pillar_name).getD []
    .ok ⟨some
      { s with
        chat_history := alSet s.chat_history pillar_name (hist ++ [⟨role, content⟩])
        state :=
          { s.state with
            all_conversations :=
              s.state.all_conversations ++ [⟨pillar_name, role, content⟩] } }⟩

/-- Embeds StateManager.update_user_profile: raises when uninitialized;
otherwise dict-update merges the given entries into the user profile. -/
def update_user_profile (m : StateManager) (updates : List (String × PyVal)) :
    Except String StateManager :=
  match m.state with
  | none => .error "State not initialized"
  | some s =>
    .ok ⟨some
      { s with
        state :=
          { s.state with
            user_profile :=
              updates.foldl (fun acc p => alSet acc p.1 p.2) s.state.user_profile } }⟩

/-- Embeds StateManager.get_user_profile: empty dictionary when uninitialized,
otherwise the stored profile. -/
def get_user_profile (m : StateManager) : List (String × PyVal) :=
  match m.state with
  | none => []
  | some s => s.state.user_profile

/-- Embeds StateManager.set_pillar_summary: raises when uninitialized,
otherwise assigns the summary under the pillar name. -/
def set_pillar_summary (m : StateManager) (pillar_name : String)
    (summary : List (String × PyVal)) : Except String StateManager :=
  match m.state with
  | none => .error "State not initialized"
  | some s => .ok ⟨some { s with summaries := alSet s.summaries pillar_name summary }⟩

/-- Embeds StateManager.get_pillar_summary: empty dictionary when uninitialized
or when the pillar has no summary yet. -/
def get_pillar_summary (m : StateManager) (pillar_name : String) :
    List (String × PyVal) :=
  match m.state with
  | none => []
  | some s => (alGet s.summaries pillar_name).getD []

/-- Embeds StateManager.get_all_summaries. -/
def get_all_summaries (m : StateManager) :
    List (String × List (String × PyVal)) :=
  match m.state with
  | none => []
  | some s => s.summaries

/-- Embeds StateManager.update_current_document: raises when uninitialized,
otherwise assigns the section's content in the current document. -/
def update_current_document (m : StateManager) (sect content : String) :
    Except String StateManager :=
  match m.state with
  | none => .error "State not initialized"
  | some s =>
    .ok ⟨some
      { s with
        state :=
          { s.state with
            current_document := alSet s.state.current_document sect content } }⟩

/-- Embeds StateManager.get_current_document: empty dictionary when
uninitialized. -/
def get_current_document (m : StateManager) : List (String × String) :=
  match m.state with
  | none => []
  | some s => s.state.current_document

/-- Embeds StateManager.increment_follow_up_count: raises when uninitialized;
otherwise reads the count stored under "pillar.topic" (default 0), stores the
incremented count, and returns it with the updated manager. -/
def increment_follow_up_count (m : StateManager) (pillar_name topic : String) :
    Except String (Nat × StateManager) :=
  match m.state with
  | none => .error "State not initialized"
  | some s =>
    let key := pillar_name ++ "." ++ topic
    let current_count := (alGet s.state.follow_up_counts key).getD 0
    let new_count := current_count + 1
    .ok (new_count,
      ⟨some
        { s with
          state :=
            { s.state with
              follow_up_counts := alSet s.state.follow_up_counts key new_count } }⟩)

/-- Embeds StateManager.get_follow_up_count: 0 when uninitialized or when the
"pillar.topic" key is absent. -/
def get_follow_up_count (m : StateManager) (pillar_name topic : String) : Nat :=
  match m.state with
  | none => 0
  | some s => (alGet s.state.follow_up_counts (pillar_name ++ "." ++ topic)).getD 0

/-- The three components returned by StateManager.export_state when a state is
present: the chat histories, the inner state bundle, and the summaries. -/
structure ExportData where
  chat_history : List (String × List Message)
  state : StateBundle
  summaries : List (String × List (String × PyVal))
deriving DecidableEq

/-- Embeds StateManager.export_state: an uninitialized manager exports the
empty dictionary (modelled as none); otherwise the three state components. -/
def export_state (m : StateManager) : Option ExportData :=
  match m.state with
  | none => none
  | some s => some ⟨s.chat_history, s.state, s.summaries⟩

/-- Embeds StateManager.import_state on exported data of the shape produced by
export_state: installs a fresh InterviewState holding the three components. -/
def import_state (d : ExportData) : StateManager :=
  ⟨some { chat_history := d.chat_history, state := d.state, summaries := d.summaries }⟩

/-- JSON string escaping for the characters that matter in this state
(backslash, double quote, newline, carriage return, tab). -/
def jsonEscapeChar (c : Char) : String :=
  if c = '\\' then "\\\\"
  else if c = '"' then "\\\""
  else if c = '\n' then "\\n"
  else if c = '\r' then "\\r"
  else if c = '\t' then "\\t"
  else String.mk [c]

/-- A JSON string literal for s. -/
def jsonQuote (s : String) : String :=
  "\"" ++ String.join (s.data.map jsonEscapeChar) ++ "\""

/-- JSON form of a PyVal scalar. -/
def pyValJson : PyVal → String
  | .pyNone => "null"
  | .pyStr s => jsonQuote s
  | .pyInt n => toString n

/-- json.dumps with indent 2 of a flat dictionary, serialized in insertion
order; ind is the indentation prefix of the surrounding nesting level. -/
def jsonDumpsFlatAt (ind : String) (d : List (String × PyVal)) : String :=
  if d.isEmpty then "\x7b\x7d"
  else
    "\x7b\n" ++
      String.intercalate ",\n"
        (d.map fun p => ind ++ "  " ++ jsonQuote p.1 ++ ": " ++ pyValJson p.2) ++
      "\n" ++ ind ++ "\x7d"

/-- json.dumps with indent 2 of a flat dictionary at top level. -/
def jsonDumpsFlat (d : List (String × PyVal)) : String :=
  jsonDumpsFlatAt "" d

/-- json.dumps with indent 2 of the summaries dictionary (a dictionary of flat
dictionaries), serialized in insertion order at both levels. -/
def jsonDumpsSummaries (d : List (String × List (String × PyVal))) : String :=
  if d.isEmpty then "\x7b\x7d"
  else
    "\x7b\n" ++
      String.intercalate ",\n"
        (d.map fun p => "  " ++ jsonQuote p.1 ++ ": " ++ jsonDumpsFlatAt "  " p.2) ++
      "\n\x7d"

/-- json.dumps with indent 2 of a string-valued dictionary (the current
document), serialized in insertion order. -/
def jsonDumpsStrDict (d : List (String × String)) : String :=
  jsonDumpsFlat (d.map fun p => (p.1, .pyStr p.2))

/-- Embeds StateManager.build_system_prompt_context: empty dictionary when
uninitialized; otherwise the five context entries, where the three profile
entries use dict.get with string defaults (so a stored None is returned as
None, the default applies only to a missing key) and the summaries and current
document are serialized with json.dumps(indent=2) in insertion order. -/
def build_system_prompt_context (m : StateManager) (pillar_name : String) :
    List (String × PyVal) :=
  match m.state with
  | none => []
  | some s =>
    [("expertise_level", (alGet s.state.user_profile "expertise_level").getD (.pyStr "unknown")),
     ("gauged_complexity", (alGet s.state.user_profile "gauged_complexity").getD (.pyStr "unknown")),
     ("project_description", (alGet s.state.user_profile "project_description").getD (.pyStr "No description yet")),
     ("all_summaries", .pyStr (jsonDumpsSummaries s.summaries)),
     ("current_document", .pyStr (jsonDumpsStrDict s.state.current_document))]

/-- A prompt template is a sequence of literal pieces and named placeholders,
the shallow form of a Python format string. -/
inductive TmplPart where
  | lit : String → TmplPart
  | hole : String → TmplPart
deriving DecidableEq

/-- The raw source text of a template, with each placeholder written in Python
format-string brace syntax. -/
def tmplText : List TmplPart → String
  | [] => ""
  | .lit s :: rest => s ++ tmplText rest
  | .hole k :: rest => "\x7b" ++ k ++ "\x7d" ++ tmplText rest

/-- The placeholder names referenced by a template. -/
def tmplHoles : List TmplPart → List String
  | [] => []
  | .lit _ :: rest => tmplHoles rest
  | .hole k :: rest => k :: tmplHoles rest

/-- Python str.format with keyword arguments from the context: substitutes the
str() form of each placeholder's value, and raises KeyError (here the error
carries the key) on the first placeholder missing from the context. -/
def formatTmpl : List TmplPart → List (String × PyVal) → Except String String
  | [], _ => .ok ""
  | .lit s :: rest, ctx => (formatTmpl rest ctx).map (fun r => s ++ r)
  | .hole k :: rest, ctx =>
    match alGet ctx k with
    | some v => (formatTmpl rest ctx).map (fun r => pyToString v ++ r)
    | none => .error k

/-- Total template fill, used to state what str.format returns when every
placeholder is present. -/
def fillTmpl : List TmplPart → List (String × PyVal) → String
  | [], _ => ""
  | .lit s :: rest, ctx => s ++ fillTmpl rest ctx
  | .hole k :: rest, ctx => pyToString ((alGet ctx k).getD .pyNone) ++ fillTmpl rest ctx

/-- Embeds the agents' _build_system_prompt (identical in app.py, business.py,
profiler.py, tribal.py): try template.format(**context); on KeyError fall back
to the raw template text followed by the context appended as a structured text
block. -/
def build_system_prompt (tmpl : List TmplPart) (m : StateManager)
    (pillar_name : String) : String :=
  let context := build_system_prompt_context m pillar_name
  match formatTmpl tmpl context with
  | .ok s => s
  | .error _ => tmplText tmpl ++ "\n\nCONTEXT:\n" ++ jsonDumpsFlat context

/-- Embeds the ReasoningResponse dataclass of core.openai_client. -/
structure ReasoningResponse where
  content : String
  reasoning_summary : Option String := none
  reasoning_tokens : Option Int := none
  completion_tokens : Option Int := none
  model_used : Option String := none
  reasoning_effort : Option String := none
deriving DecidableEq

/-- One entry of the oracle client's reasoning_storage list. -/
structure StorageEntry where
  timestamp : Nat
  reasoning_summary : Option String
  model : Option String
  effort : Option String
  reasoning_tokens : Option Int
  content_preview : String
  context : List (String × PyVal)
deriving DecidableEq

/-- The content preview stored with a trace entry: the content truncated to 500
characters with an ellipsis when longer. -/
def contentPreview (c : String) : String :=
  if c.data.length > 500 then String.mk (c.data.take 500) ++ "..." else c

/-- The storage entry built by store_reasoning_summary from a response, the
current time, and the optional call context. -/
def mkStorageEntry (now : Nat) (rr : ReasoningResponse)
    (context : List (String × PyVal)) : StorageEntry :=
  ⟨now, rr.reasoning_summary, rr.model_used, rr.reasoning_effort,
   rr.reasoning_tokens, contentPreview rr.content, context⟩

/-- Embeds OpenAIClient.store_reasoning_summary acting on the reasoning_storage
list: append the new entry, then, if the list now holds more than 10 entries,
keep only the last 10 (Python slice [-10:]). -/
def store_reasoning_summary (storage : List StorageEntry) (now : Nat)
    (rr : ReasoningResponse) (context : List (String × PyVal)) : List StorageEntry :=
  let storage := storage ++ [mkStorageEntry now rr context]
  if storage.length > 10 then storage.drop (storage.length - 10) else storage

/-- The fixed fallback apology string of OpenAIClient.call_agent. -/
def fallbackMessage : String :=
  "I apologize, but I'm having trouble connecting to the AI service right now. Please try again in a moment."

/-- Embeds OpenAIClient.call_agent as observed by the topic loop (default
gpt-4o model path): the oracle transport either returns the generated text or
raises, and every exception is caught and replaced by the fixed fallback
apology string — nothing propagates to the caller. -/
def call_agent (oracleResult : Except String String) : String :=
  match oracleResult with
  | .ok content => content
  | .error _ => fallbackMessage

/-- Modelled from the spec: every pillar agent imports is_skip_response from
utils.helpers, but no definition of it exists anywhere in the source tree.
The spec (4.2) defines skip detection as the oracle-backed skip classifier
mapping an answer to skip or answer, which the source provides as
is_skip_request_llm; the loop's skip check is therefore modelled as that
classifier applied to the user's answer and a scripted oracle outcome. -/
def is_skip_response (user_answer : String) (skipOracle : Except String String) : Bool :=
  is_skip_request_llm user_answer skipOracle

/-- The scripted external world of one topic-loop iteration: the oracle outcome
for the generation call, the user's raw terminal answer, the oracle outcomes
consumed by the skip and follow-up classifiers, and (for the profiler pillar)
the profile updates its answer processing produces. -/
structure IterEvent where
  genResult : Except String String
  userAnswer : String
  skipOracle : Except String String
  followUpOracle : Except String String
  profileUpdates : List (String × PyVal)

/-- The per-agent follow-up cap (self.max_follow_ups = 3 in every pillar
agent). -/
def max_follow_ups : Nat := 3

/-- Embeds the pillar agents' _process_topic loop. The source iterates `while
not topic_complete and follow_up_count < max_follow_ups`; here the loop is
structural recursion on remaining = max_follow_ups - follow_up_count, so the
guard holds exactly when remaining is positive. Per iteration the source
builds the system prompt and agent input and sends them to the oracle — both
only shape the external call, whose outcome the event script supplies — then
appends the assistant and user turns, checks the skip classifier, for the
profiler (processAnswer = true) applies the answer's profile updates, and
finally either increments the follow-up counter and loops or resolves the
topic. Events are indexed by follow_up_count, which uniquely identifies the
iteration. -/
def process_topic (pillar_name topic : String) (processAnswer : Bool)
    (events : Nat → IterEvent) :
    Nat → Nat → StateManager → Except String StateManager
  | 0, _, sm => .ok sm
  | remaining + 1, follow_up_count, sm =>
    let ev := events follow_up_count
    let agent_response := call_agent ev.genResult
    let user_answer := clean_user_input (strTrim ev.userAnswer)
    match add_to_chat_history sm pillar_name "assistant" agent_response with
    | .error err => .error err
    | .ok sm1 =>
      match add_to_chat_history sm1 pillar_name "user" user_answer with
      | .error err => .error err
      | .ok sm2 =>
        if is_skip_response user_answer ev.skipOracle then .ok sm2
        else
          match
            (if processAnswer && !ev.profileUpdates.isEmpty then
              update_user_profile sm2 ev.profileUpdates
            else .ok sm2) with
          | .error err => .error err
          | .ok sm3 =>
            if needs_follow_up_llm user_answer agent_response ev.followUpOracle then
              match increment_follow_up_count sm3 pillar_name topic with
              | .error err => .error err
              | .ok (_, sm4) =>
                process_topic pillar_name topic processAnswer events
                  remaining (follow_up_count + 1) sm4
            else .ok sm3

/-- The pillar transcript as read through get_chat_history (its returned
value). -/
def pillar_transcript (m : StateManager) (pillar_name : String) : List Message :=
  (get_chat_history m pillar_name).1

/-- The event script with iteration i's generation outcome replaced by a
successful oracle answer equal to the fallback apology string; used to state
that an oracle failure makes the loop behave exactly as if the oracle had
answered with the apology text. -/
def withFallbackAt (events : Nat → IterEvent) (i : Nat) : Nat → IterEvent :=
  fun j => if j = i then { events j with genResult := .ok fallbackMessage } else events j

/-- Demo script for the follow-up-cap witness: the oracle always asks "Q?",
the user always answers "ans", the skip classifier's oracle says ANSWER and
the follow-up classifier's oracle always demands a follow-up. -/
def demoFUEvents : Nat → IterEvent := fun _ =>
  { genResult := .ok "Q?", userAnswer := "ans", skipOracle := .ok "ANSWER",
    followUpOracle := .ok "FOLLOW_UP_NEEDED", profileUpdates := [] }

/-- The state produced by running the topic loop on the follow-up-cap demo
script from a freshly initialized state. -/
def demoFUResult : StateManager :=
  match process_topic "app" "compute" false demoFUEvents max_follow_ups 0 init_state with
  | .ok sm => sm
  | .error _ => newStateManager

/-- Demo script for the skip witness: the user answers "skip" and the skip
classifier's oracle says SKIP. -/
def demoSkipEvents : Nat → IterEvent := fun _ =>
  { genResult := .ok "Q1", userAnswer := "skip", skipOracle := .ok "SKIP",
    followUpOracle := .ok "COMPLETE", profileUpdates := [] }

/-- Demo script for the oracle-failure witness: the generation call raises and
the classifiers' oracles respond normally. -/
def demoErrEvents : Nat → IterEvent := fun _ =>
  { genResult := .error "OracleError", userAnswer := "my answer", skipOracle := .ok "ANSWER",
    followUpOracle := .ok "COMPLETE", profileUpdates := [] }

/-- Demo script for the document-frame witness: a complete answer resolves the
topic in one iteration. -/
def demoDocEvents : Nat → IterEvent := fun _ =>
  { genResult := .ok "Which database?", userAnswer := "postgresql", skipOracle := .ok "ANSWER",
    followUpOracle := .ok "COMPLETE", profileUpdates := [] }

/-- The state produced by running the topic loop on the document-frame demo
script from a freshly initialized state whose document has one section. -/
def demoDocStart : StateManager :=
  match update_current_document init_state "overview" "A web app" with
  | .ok sm => sm
  | .error _ => newStateManager

/-- Result of the document-frame demo run. -/
def demoDocResult : StateManager :=
  match process_topic "app" "database" false demoDocEvents max_follow_ups 0 demoDocStart with
  | .ok sm => sm
  | .error _ => newStateManager

/-- Demo interview state for the export/import witness: non-empty transcripts
for two pillars, a filled profile, a document section, and two summaries. -/
def demoExportIS : InterviewState :=
  { chat_history :=
      [("profiler", [⟨"assistant", "Tell me about yourself"⟩, ⟨"user", "I build web apps"⟩]),
       ("business", [⟨"assistant", "What are your goals?"⟩, ⟨"user", "Launch fast"⟩])]
    state :=
      { user_profile :=
          [("expertise_level", .pyStr "intermediate"),
           ("project_description", .pyStr "web app"),
           ("gauged_complexity", .pyStr "matches stated")]
        current_document := [("best_practices", "Use CI")]
        all_conversations := []
        follow_up_counts := [("profiler.background", 1)] }
    summaries :=
      [("profiler", [("expertise_stated", .pyStr "intermediate")]),
       ("business", [("goals", .pyStr "Launch fast")])] }


theorem alGet_alSet_self {α : Type} (l : List (String × α)) (k : String) (v : α) :
    alGet (alSet l k v) k = some v := by
  induction l with
  | nil => simp [alSet, alGet]
  | cons p rest ih =>
    by_cases h : p.1 = k
    · simp [alSet, h, alGet]
    · simp [alSet, h, alGet, ih]

theorem getLast?_drop_of_lt {α : Type} :
    ∀ (l : List α) (n : Nat), n < l.length → (l.drop n).getLast? = l.getLast?
  | _, 0, _ => by simp
  | a :: as, n + 1, h => by
    have hn : n < as.length := by simpa using h
    rw [List.drop_succ_cons, getLast?_drop_of_lt as n hn]
    cases as with
    | nil => simp at hn
    | cons b bs => rw [List.getLast?_cons_cons]

/-- C3: on every oracle failure each classifier returns exactly its documented
safe default, and on unparseable oracle output likewise: needs-follow-up
reports complete (false), skip-request reports answer (false), expertise-level
reports none, and technical-complexity reports "medium". The classifiers are
total Lean functions, so no exception can escape them. -/
theorem classifier_safe_defaults (e user_answer question content : String) :
    needs_follow_up_llm user_answer question (.error e) = false ∧
    is_skip_request_llm user_answer (.error e) = false ∧
    extract_expertise_level_llm user_answer (.error e) = none ∧
    assess_technical_complexity_llm user_answer (.error e) = "medium" ∧
    (strContains (strUpper content) "FOLLOW_UP_NEEDED" = false →
      needs_follow_up_llm user_answer question (.ok content) = false) ∧
    (strContains (strUpper content) "SKIP" = false →
      is_skip_request_llm user_answer (.ok content) = false) ∧
    (strTrim (strUpper content) ≠ "NOVICE" → strTrim (strUpper content) ≠ "INTERMEDIATE" →
      strTrim (strUpper content) ≠ "ADVANCED" →
      extract_expertise_level_llm user_answer (.ok content) = none) ∧
    (strTrim (strUpper content) ≠ "LOW" → strTrim (strUpper content) ≠ "MEDIUM" →
      strTrim (strUpper content) ≠ "HIGH" →
      assess_technical_complexity_llm user_answer (.ok content) = "medium") := by
  refine ⟨rfl, rfl, rfl, rfl, ?_, ?_, ?_, ?_⟩
  · intro h; simp [needs_follow_up_llm, h]
  · intro h; simp [is_skip_request_llm, h]
  · intro h1 h2 h3; simp [extract_expertise_level_llm, h1, h2, h3]
  · intro h1 h2 h3; simp [assess_technical_complexity_llm, h1, h2, h3]

/-- Witness for classifier_safe_defaults at a concrete failing oracle and a
concrete unparseable response. -/
theorem classifier_safe_defaults_witness :
    strContains (strUpper "garbage") "FOLLOW_UP_NEEDED" = false ∧
    strTrim (strUpper "garbage") ≠ "NOVICE" ∧
    needs_follow_up_llm "a" "q" (.error "boom") = false ∧
    is_skip_request_llm "a" (.error "boom") = false ∧
    extract_expertise_level_llm "a" (.error "boom") = none ∧
    assess_technical_complexity_llm "a" (.error "boom") = "medium" ∧
    needs_follow_up_llm "a" "q" (.ok "garbage") = false ∧
    is_skip_request_llm "a" (.ok "garbage") = false ∧
    extract_expertise_level_llm "a" (.ok "garbage") = none ∧
    assess_technical_complexity_llm "a" (.ok "garbage") = "medium" := by
  have h := classifier_safe_defaults "boom" "a" "q" "garbage"
  exact ⟨by decide, by decide, h.1, h.2.1, h.2.2.1, h.2.2.2.1,
    h.2.2.2.2.1 (by decide), h.2.2.2.2.2.1 (by decide),
    h.2.2.2.2.2.2.1 (by decide) (by decide) (by decide),
    h.2.2.2.2.2.2.2 (by decide) (by decide) (by decide)⟩

/-- C9: after every call to store_reasoning_summary the trace list holds at
most 10 entries and is exactly the most recent part of the appended history:
its length is min (previous length + 1) 10, it equals the appended history
with only its oldest overflow dropped (so each of the 10 most recent entries
survives and only older ones are discarded), it is a suffix of the appended
history, and the just-stored entry is its last element. -/
theorem reasoning_storage_bounded (storage : List StorageEntry) (now : Nat)
    (rr : ReasoningResponse) (context : List (String × PyVal)) :
    (store_reasoning_summary storage now rr context).length ≤ 10 ∧
    (store_reasoning_summary storage now rr context).length =
      min (storage.length + 1) 10 ∧
    store_reasoning_summary storage now rr context =
      (storage ++ [mkStorageEntry now rr context]).drop (storage.length + 1 - 10) ∧
    (store_reasoning_summary storage now rr context).getLast? =
      some (mkStorageEntry now rr context) ∧
    List.IsSuffix (store_reasoning_summary storage now rr context)
      (storage ++ [mkStorageEntry now rr context]) := by
  unfold store_reasoning_summary
  set l := storage ++ [mkStorageEntry now rr context] with hl
  have hlen : l.length = storage.length + 1 := by rw [hl]; simp
  by_cases h : l.length > 10
  · simp only [h, if_pos]
    refine ⟨?_, ?_, ?_, ?_, ?_⟩
    · rw [List.length_drop]; omega
    · rw [List.length_drop]; omega
    · rw [hlen]
    · rw [getLast?_drop_of_lt l (l.length - 10) (by omega)]
      rw [hl, List.getLast?_concat]
    · exact ⟨l.take (l.length - 10), List.take_append_drop _ l⟩
  · simp only [h, if_neg, not_false_iff]
    refine ⟨by omega, by omega, ?_, ?_, ⟨[], by simp⟩⟩
    · have h0 : storage.length + 1 - 10 = 0 := by omega
      rw [h0, List.drop_zero]
    · rw [hl, List.getLast?_concat]

/-- C10: before initialize_state every mutating StateManager operation raises
the "State not initialized" error while every reader returns its empty or zero
default without raising. -/
theorem uninitialized_state_asymmetry (p t role content sect : String)
    (updates summary : List (String × PyVal)) :
    add_to_chat_history newStateManager p role content = .error "State not initialized" ∧
    update_user_profile newStateManager updates = .error "State not initialized" ∧
    set_pillar_summary newStateManager p summary = .error "State not initialized" ∧
    update_current_document newStateManager sect content = .error "State not initialized" ∧
    increment_follow_up_count newStateManager p t = .error "State not initialized" ∧
    (get_chat_history newStateManager p).1 = [] ∧
    get_user_profile newStateManager = [] ∧
    get_pillar_summary newStateManager p = [] ∧
    get_follow_up_count newStateManager p t = 0 ∧
    get_current_document newStateManager = [] ∧
    export_state newStateManager = none :=
  ⟨rfl, rfl, rfl, rfl, rfl, rfl, rfl, rfl, rfl, rfl, rfl⟩

/-- C5: exporting an initialized Conversation State and importing the exported
data reconstructs the state exactly — same transcripts, same inner state
(profile, document, conversation log, counters), same summaries. -/
theorem export_import_roundtrip (m : StateManager) (s : InterviewState)
    (h : m.state = some s) :
    ∃ d, export_state m = some d ∧ import_state d = m := by
  obtain ⟨os⟩ := m
  cases h
  exact ⟨⟨s.chat_history, s.state, s.summaries⟩, rfl, rfl⟩

/-- Witness for export_import_roundtrip on a state with non-empty transcripts
for two pillars. -/
theorem export_import_roundtrip_witness :
    pillar_transcript ⟨some demoExportIS⟩ "profiler" ≠ [] ∧
    pillar_transcript ⟨some demoExportIS⟩ "business" ≠ [] ∧
    ∃ d, export_state ⟨some demoExportIS⟩ = some d ∧ import_state d = ⟨some demoExportIS⟩ :=
  ⟨by decide, by decide, export_import_roundtrip ⟨some demoExportIS⟩ demoExportIS rfl⟩

/-- C6: prompt rendering is a function of the Conversation State alone — two
managers holding the same state render byte-identical context dictionaries,
serialized summaries, and prompt text; key order in the serialized summaries
is the state's insertion order, which the embedding fixes. -/
theorem prompt_rendering_deterministic (tmpl : List TmplPart) (m1 m2 : StateManager)
    (pillar : String) (h : m1.state = m2.state) :
    build_system_prompt_context m1 pillar = build_system_prompt_context m2 pillar ∧
    jsonDumpsSummaries (get_all_summaries m1) = jsonDumpsSummaries (get_all_summaries m2) ∧
    build_system_prompt tmpl m1 pillar = build_system_prompt tmpl m2 pillar := by
  obtain ⟨o1⟩ := m1
  obtain ⟨o2⟩ := m2
  cases h
  exact ⟨rfl, rfl, rfl⟩

/-- Witness for prompt_rendering_deterministic: two renders of the freshly
initialized state agree. -/
theorem prompt_rendering_deterministic_witness :
    build_system_prompt_context init_state "app" =
      build_system_prompt_context ⟨init_state.state⟩ "app" ∧
    jsonDumpsSummaries (get_all_summaries init_state) =
      jsonDumpsSummaries (get_all_summaries ⟨init_state.state⟩) ∧
    build_system_prompt [TmplPart.hole "expertise_level"] init_state "app" =
      build_system_prompt [TmplPart.hole "expertise_level"] ⟨init_state.state⟩ "app" :=
  prompt_rendering_deterministic [TmplPart.hole "expertise_level"] init_state
    ⟨init_state.state⟩ "app" rfl

theorem formatTmpl_complete (ctx : List (String × PyVal)) :
    ∀ tmpl : List TmplPart, (∀ k ∈ tmplHoles tmpl, (alGet ctx k).isSome) →
      formatTmpl tmpl ctx = .ok (fillTmpl tmpl ctx) := by
  intro tmpl
  induction tmpl with
  | nil => intro _; rfl
  | cons p rest ih =>
    cases p with
    | lit s =>
      intro h
      have hr := ih (by intro k hk; exact h k (by simpa [tmplHoles] using hk))
      simp [formatTmpl, fillTmpl, hr, Except.map]
    | hole k =>
      intro h
      have hk := h k (by simp [tmplHoles])
      obtain ⟨v, hv⟩ := Option.isSome_iff_exists.mp hk
      have hr := ih (by intro k' hk'; exact h k' (by simp [tmplHoles, hk']))
      simp [formatTmpl, fillTmpl, hv, hr, Except.map]

theorem formatTmpl_missing (ctx : List (String × PyVal)) :
    ∀ (tmpl : List TmplPart) (k : String), k ∈ tmplHoles tmpl → alGet ctx k = none →
      ∃ k', formatTmpl tmpl ctx = .error k' := by
  intro tmpl
  induction tmpl with
  | nil => intro k hk; simp [tmplHoles] at hk
  | cons p rest ih =>
    cases p with
    | lit s =>
      intro k hk hnone
      obtain ⟨k', hk'⟩ := ih k (by simpa [tmplHoles] using hk) hnone
      exact ⟨k', by simp [formatTmpl, hk', Except.map]⟩
    | hole q =>
      intro k hk hnone
      cases hq : alGet ctx q with
      | none => exact ⟨q, by simp [formatTmpl, hq]⟩
      | some v =>
        have hkr : k ∈ tmplHoles rest := by
          rcases (by simpa [tmplHoles] using hk : k = q ∨ k ∈ tmplHoles rest) with h | h
          · subst h; rw [hq] at hnone; cases hnone
          · exact h
        obtain ⟨k', hk'⟩ := ih k hkr hnone
        exact ⟨k', by simp [formatTmpl, hq, hk', Except.map]⟩

/-- C7: building the system prompt never raises — when the template references
a placeholder missing from the Conversation State context, the result degrades
to the raw template text followed by the context appended as a structured text
block; when every placeholder is present, the result is the template with
placeholders filled from the context. -/
theorem build_system_prompt_spec (tmpl : List TmplPart) (m : StateManager)
    (pillar : String) :
    ((∃ k, k ∈ tmplHoles tmpl ∧ alGet (build_system_prompt_context m pillar) k = none) →
      build_system_prompt tmpl m pillar =
        tmplText tmpl ++ "\n\nCONTEXT:\n" ++
          jsonDumpsFlat (build_system_prompt_context m pillar)) ∧
    ((∀ k ∈ tmplHoles tmpl, (alGet (build_system_prompt_context m pillar) k).isSome) →
      build_system_prompt tmpl m pillar =
        fillTmpl tmpl (build_system_prompt_context m pillar)) := by
  constructor
  · rintro ⟨k, hk, hnone⟩
    obtain ⟨k', hk'⟩ := formatTmpl_missing _ tmpl k hk hnone
    simp [build_system_prompt, hk']
  · intro h
    have := formatTmpl_complete _ tmpl h
    simp [build_system_prompt, this]

/-- Witness for build_system_prompt_spec: a template referencing a placeholder
absent from the context degrades to the raw-context fallback, and a template
using only provided placeholders is filled. -/
theorem build_system_prompt_spec_witness :
    build_system_prompt [TmplPart.lit "Base. ", TmplPart.hole "nonexistent"] init_state "app" =
      tmplText [TmplPart.lit "Base. ", TmplPart.hole "nonexistent"] ++ "\n\nCONTEXT:\n" ++
        jsonDumpsFlat (build_system_prompt_context init_state "app") ∧
    build_system_prompt [TmplPart.lit "Level: ", TmplPart.hole "expertise_level"] init_state "app" =
      fillTmpl [TmplPart.lit "Level: ", TmplPart.hole "expertise_level"]
        (build_system_prompt_context init_state "app") :=
  ⟨(build_system_prompt_spec _ init_state "app").1 ⟨"nonexistent", by decide, by decide⟩,
   (build_system_prompt_spec _ init_state "app").2 (by decide)⟩

theorem add_to_chat_history_preserves (m m' : StateManager) (p r c : String)
    (h : add_to_chat_history m p r c = .ok m') :
    (∀ pn tn, get_follow_up_count m' pn tn = get_follow_up_count m pn tn) ∧
    get_current_document m' = get_current_document m := by
  cases hs : m.state with
  | none => simp [add_to_chat_history, hs] at h
  | some s =>
    simp only [add_to_chat_history, hs, Except.ok.injEq] at h
    subst h
    simp [get_follow_up_count, get_current_document, hs]

theorem update_user_profile_preserves (m m' : StateManager) (u : List (String × PyVal))
    (h : update_user_profile m u = .ok m') :
    (∀ pn tn, get_follow_up_count m' pn tn = get_follow_up_count m pn tn) ∧
    get_current_document m' = get_current_document m := by
  cases hs : m.state with
  | none => simp [update_user_profile, hs] at h
  | some s =>
    simp only [update_user_profile, hs, Except.ok.injEq] at h
    subst h
    simp [get_follow_up_count, get_current_document, hs]

theorem opt_update_profile_preserves (m m' : StateManager) (b : Bool)
    (u : List (String × PyVal))
    (h : (if b then update_user_profile m u else .ok m) = .ok m') :
    (∀ pn tn, get_follow_up_count m' pn tn = get_follow_up_count m pn tn) ∧
    get_current_document m' = get_current_document m := by
  cases b with
  | false =>
    simp only [if_neg, Bool.false_eq_true, not_false_iff, Except.ok.injEq] at h
    subst h
    exact ⟨fun _ _ => rfl, rfl⟩
  | true => exact update_user_profile_preserves m m' u (by simpa using h)

theorem increment_follow_up_count_spec (m m' : StateManager) (p t : String) (n : Nat)
    (h : increment_follow_up_count m p t = .ok (n, m')) :
    get_follow_up_count m' p t = get_follow_up_count m p t + 1 ∧
    get_current_document m' = get_current_document m := by
  cases hs : m.state with
  | none => simp [increment_follow_up_count, hs] at h
  | some s =>
    simp only [increment_follow_up_count, hs, Except.ok.injEq, Prod.mk.injEq] at h
    obtain ⟨hn, hm⟩ := h
    subst hm
    constructor
    · simp [get_follow_up_count, hs, alGet_alSet_self]
    · simp [get_current_document, hs]

theorem process_topic_counter (pillar topic : String) (pa : Bool) (ev : Nat → IterEvent) :
    ∀ (remaining fuc : Nat) (sm sm' : StateManager),
      process_topic pillar topic pa ev remaining fuc sm = .ok sm' →
      get_follow_up_count sm pillar topic ≤ get_follow_up_count sm' pillar topic ∧
      get_follow_up_count sm' pillar topic ≤ get_follow_up_count sm pillar topic + remaining := by
  intro remaining
  induction remaining with
  | zero =>
    intro fuc sm sm' h
    simp only [process_topic, Except.ok.injEq] at h
    subst h
    omega
  | succ r ih =>
    intro fuc sm sm' h
    simp only [process_topic] at h
    cases h1 : add_to_chat_history sm pillar "assistant" (call_agent (ev fuc).genResult) with
    | error err => rw [h1] at h; simp at h
    | ok sm1 =>
      rw [h1] at h
      simp only [] at h
      obtain ⟨hc1, hd1⟩ := add_to_chat_history_preserves _ _ _ _ _ h1
      cases h2 : add_to_chat_history sm1 pillar "user"
          (clean_user_input (strTrim (ev fuc).userAnswer)) with
      | error err => rw [h2] at h; simp at h
      | ok sm2 =>
        rw [h2] at h
        simp only [] at h
        obtain ⟨hc2, hd2⟩ := add_to_chat_history_preserves _ _ _ _ _ h2
        by_cases hskip : is_skip_response (clean_user_input (strTrim (ev fuc).userAnswer))
            (ev fuc).skipOracle = true
        · rw [if_pos hskip] at h
          simp only [Except.ok.injEq] at h
          subst h
          rw [hc2, hc1]
          omega
        · rw [if_neg hskip] at h
          cases h3 : (if pa && !(ev fuc).profileUpdates.isEmpty then
              update_user_profile sm2 (ev fuc).profileUpdates else .ok sm2) with
          | error err => rw [h3] at h; simp at h
          | ok sm3 =>
            rw [h3] at h
            simp only [] at h
            obtain ⟨hc3, hd3⟩ := opt_update_profile_preserves _ _ _ _ h3
            by_cases hfu : needs_follow_up_llm (clean_user_input (strTrim (ev fuc).userAnswer))
                (call_agent (ev fuc).genResult) (ev fuc).followUpOracle = true
            · rw [if_pos hfu] at h
              cases h4 : increment_follow_up_count sm3 pillar topic with
              | error err => rw [h4] at h; simp at h
              | ok pr =>
                obtain ⟨n, sm4⟩ := pr
                rw [h4] at h
                simp only [] at h
                obtain ⟨hc4, hd4⟩ := increment_follow_up_count_spec _ _ _ _ _ h4
                obtain ⟨hmono, hbound⟩ := ih (fuc + 1) sm4 sm' h
                rw [hc4, hc3, hc2, hc1] at hmono hbound
                omega
            · rw [if_neg hfu] at h
              simp only [Except.ok.injEq] at h
              subst h
              rw [hc3, hc2, hc1]
              omega

theorem process_topic_document (pillar topic : String) (pa : Bool) (ev : Nat → IterEvent) :
    ∀ (remaining fuc : Nat) (sm sm' : StateManager),
      process_topic pillar topic pa ev remaining fuc sm = .ok sm' →
      get_current_document sm' = get_current_document sm := by
  intro remaining
  induction remaining with
  | zero =>
    intro fuc sm sm' h
    simp only [process_topic, Except.ok.injEq] at h
    subst h
    rfl
  | succ r ih =>
    intro fuc sm sm' h
    simp only [process_topic] at h
    cases h1 : add_to_chat_history sm pillar "assistant" (call_agent (ev fuc).genResult) with
    | error err => rw [h1] at h; simp at h
    | ok sm1 =>
      rw [h1] at h
      simp only [] at h
      obtain ⟨_, hd1⟩ := add_to_chat_history_preserves _ _ _ _ _ h1
      cases h2 : add_to_chat_history sm1 pillar "user"
          (clean_user_input (strTrim (ev fuc).userAnswer)) with
      | error err => rw [h2] at h; simp at h
      | ok sm2 =>
        rw [h2] at h
        simp only [] at h
        obtain ⟨_, hd2⟩ := add_to_chat_history_preserves _ _ _ _ _ h2
        by_cases hskip : is_skip_response (clean_user_input (strTrim (ev fuc).userAnswer))
            (ev fuc).skipOracle = true
        · rw [if_pos hskip] at h
          simp only [Except.ok.injEq] at h
          subst h
          rw [hd2, hd1]
        · rw [if_neg hskip] at h
          cases h3 : (if pa && !(ev fuc).profileUpdates.isEmpty then
              update_user_profile sm2 (ev fuc).profileUpdates else .ok sm2) with
          | error err => rw [h3] at h; simp at h
          | ok sm3 =>
            rw [h3] at h
            simp only [] at h
            obtain ⟨_, hd3⟩ := opt_update_profile_preserves _ _ _ _ h3
            by_cases hfu : needs_follow_up_llm (clean_user_input (strTrim (ev fuc).userAnswer))
                (call_agent (ev fuc).genResult) (ev fuc).followUpOracle = true
            · rw [if_pos hfu] at h
              cases h4 : increment_follow_up_count sm3 pillar topic with
              | error err => rw [h4] at h; simp at h
              | ok pr =>
                obtain ⟨n, sm4⟩ := pr
                rw [h4] at h
                simp only [] at h
                obtain ⟨_, hd4⟩ := increment_follow_up_count_spec _ _ _ _ _ h4
                rw [ih (fuc + 1) sm4 sm' h, hd4, hd3, hd2, hd1]
            · rw [if_neg hfu] at h
              simp only [Except.ok.injEq] at h
              subst h
              rw [hd3, hd2, hd1]

theorem add_to_chat_history_some (s : InterviewState) (p r c : String) :
    ∃ m' s', add_to_chat_history ⟨some s⟩ p r c = .ok m' ∧ m'.state = some s' :=
  ⟨_, _, rfl, rfl⟩

theorem update_user_profile_some (s : InterviewState) (u : List (String × PyVal)) :
    ∃ m' s', update_user_profile ⟨some s⟩ u = .ok m' ∧ m'.state = some s' :=
  ⟨_, _, rfl, rfl⟩

theorem opt_update_profile_some (s : InterviewState) (b : Bool) (u : List (String × PyVal)) :
    ∃ m' s', (if b then update_user_profile ⟨some s⟩ u else .ok ⟨some s⟩) = .ok m' ∧
      m'.state = some s' := by
  cases b with
  | false => exact ⟨_, _, rfl, rfl⟩
  | true => exact update_user_profile_some s u

theorem increment_follow_up_count_some (s : InterviewState) (p t : String) :
    ∃ n m' s', increment_follow_up_count ⟨some s⟩ p t = .ok (n, m') ∧ m'.state = some s' :=
  ⟨_, _, _, rfl, rfl⟩

theorem process_topic_total (pillar topic : String) (pa : Bool) (ev : Nat → IterEvent) :
    ∀ (remaining fuc : Nat) (sm : StateManager) (s : InterviewState), sm.state = some s →
      ∃ sm' s', process_topic pillar topic pa ev remaining fuc sm = .ok sm' ∧
        sm'.state = some s' := by
  intro remaining
  induction remaining with
  | zero =>
    intro fuc sm s h
    exact ⟨sm, s, rfl, h⟩
  | succ r ih =>
    intro fuc sm s h
    obtain ⟨os⟩ := sm
    cases h
    simp only [process_topic]
    obtain ⟨m1, s1, e1, h1⟩ := add_to_chat_history_some s pillar "assistant"
      (call_agent (ev fuc).genResult)
    rw [e1]
    simp only []
    obtain ⟨osm1⟩ := m1
    cases h1
    obtain ⟨m2, s2, e2, h2⟩ := add_to_chat_history_some s1 pillar "user"
      (clean_user_input (strTrim (ev fuc).userAnswer))
    rw [e2]
    simp only []
    obtain ⟨osm2⟩ := m2
    cases h2
    by_cases hskip : is_skip_response (clean_user_input (strTrim (ev fuc).userAnswer))
        (ev fuc).skipOracle = true
    · rw [if_pos hskip]
      exact ⟨_, _, rfl, rfl⟩
    · rw [if_neg hskip]
      obtain ⟨m3, s3, e3, h3⟩ := opt_update_profile_some s2
        (pa && !(ev fuc).profileUpdates.isEmpty) (ev fuc).profileUpdates
      rw [e3]
      simp only []
      obtain ⟨osm3⟩ := m3
      cases h3
      by_cases hfu : needs_follow_up_llm (clean_user_input (strTrim (ev fuc).userAnswer))
          (call_agent (ev fuc).genResult) (ev fuc).followUpOracle = true
      · rw [if_pos hfu]
        obtain ⟨n, m4, s4, e4, h4⟩ := increment_follow_up_count_some s3 pillar topic
        rw [e4]
        simp only []
        exact ih (fuc + 1) m4 s4 h4
      · rw [if_neg hfu]
        exact ⟨_, _, rfl, rfl⟩

/-- C1: for every pillar and topic, the per-(pillar, topic) follow-up counter
starts at 0 (a freshly initialized state stores no counters), never decreases
across the topic loop's processing, never exceeds the configured maximum of 3
when the topic starts with a zero counter, and once the follow-up budget is
exhausted the loop terminates immediately (the topic is forcefully resolved
without another iteration). -/
theorem follow_up_counter_invariant (pillar topic : String) (pa : Bool)
    (ev : Nat → IterEvent) (sm sm' : StateManager)
    (h0 : get_follow_up_count sm pillar topic = 0)
    (hrun : process_topic pillar topic pa ev max_follow_ups 0 sm = .ok sm') :
    get_follow_up_count sm' pillar topic ≤ 3 ∧
    get_follow_up_count sm pillar topic ≤ get_follow_up_count sm' pillar topic ∧
    (∀ (fuc : Nat) (sm₀ : StateManager),
      process_topic pillar topic pa ev 0 fuc sm₀ = .ok sm₀) ∧
    (∀ pn tn, get_follow_up_count init_state pn tn = 0) := by
  obtain ⟨hmono, hbound⟩ :=
    process_topic_counter pillar topic pa ev max_follow_ups 0 sm sm' hrun
  refine ⟨?_, hmono, fun _ _ => rfl, fun _ _ => rfl⟩
  rw [h0] at hbound
  simpa [max_follow_ups] using hbound

/-- Witness for follow_up_counter_invariant: a concrete run whose oracle always
demands a follow-up drives the counter exactly to the cap of 3 and stops. -/
theorem follow_up_counter_invariant_witness :
    get_follow_up_count init_state "app" "compute" = 0 ∧
    process_topic "app" "compute" false demoFUEvents max_follow_ups 0 init_state =
      .ok demoFUResult ∧
    get_follow_up_count demoFUResult "app" "compute" = 3 ∧
    get_follow_up_count demoFUResult "app" "compute" ≤ 3 := by
  refine ⟨rfl, rfl, rfl, ?_⟩
  exact (follow_up_counter_invariant "app" "compute" false demoFUEvents init_state
    demoFUResult rfl rfl).1

/-- C8: the topic loop never mutates the Document: every successful run of
process_topic leaves the current-document mapping unchanged, whereas the
document mutator update_current_document (the operation through which the
gap-filling and feedback-revision steps write) changes exactly the given
section. -/
theorem topic_loop_preserves_document (pillar topic : String) (pa : Bool)
    (ev : Nat → IterEvent) (remaining fuc : Nat) (sm sm' : StateManager)
    (hrun : process_topic pillar topic pa ev remaining fuc sm = .ok sm') :
    get_current_document sm' = get_current_document sm ∧
    (∀ (m m' : StateManager) (sect content : String),
      update_current_document m sect content = .ok m' →
      get_current_document m' = alSet (get_current_document m) sect content) := by
  refine ⟨process_topic_document pillar topic pa ev remaining fuc sm sm' hrun, ?_⟩
  intro m m' sect content h
  cases hs : m.state with
  | none => simp [update_current_document, hs] at h
  | some s =>
    simp only [update_current_document, hs, Except.ok.injEq] at h
    subst h
    simp [get_current_document, hs]

/-- Witness for topic_loop_preserves_document: a concrete topic run on a state
whose document has one section leaves the document untouched. -/
theorem topic_loop_preserves_document_witness :
    process_topic "app" "database" false demoDocEvents max_follow_ups 0 demoDocStart =
      .ok demoDocResult ∧
    get_current_document demoDocStart = [("overview", "A web app")] ∧
    get_current_document demoDocResult = get_current_document demoDocStart := by
  refine ⟨rfl, rfl, ?_⟩
  exact (topic_loop_preserves_document "app" "database" false demoDocEvents max_follow_ups
    0 demoDocStart demoDocResult rfl).1

/-- C2: whenever the skip classifier judges the cleaned user answer of the
current iteration to be a skip request, the topic loop terminates immediately
for that topic: the iteration appends exactly one assistant turn and one user
turn to the pillar transcript, every follow-up counter keeps its prior value
(0 when the skip happens on the first exchange), and no further iteration
runs. -/
theorem skip_terminates_topic (pillar topic : String) (pa : Bool)
    (ev : Nat → IterEvent) (remaining fuc : Nat) (sm : StateManager) (s : InterviewState)
    (hsm : sm.state = some s)
    (hskip : is_skip_response (clean_user_input (strTrim (ev fuc).userAnswer))
      (ev fuc).skipOracle = true) :
    ∃ sm2, process_topic pillar topic pa ev (remaining + 1) fuc sm = .ok sm2 ∧
      (∀ pn tn, get_follow_up_count sm2 pn tn = get_follow_up_count sm pn tn) ∧
      pillar_transcript sm2 pillar =
        pillar_transcript sm pillar ++
          [⟨"assistant", call_agent (ev fuc).genResult⟩,
           ⟨"user", clean_user_input (strTrim (ev fuc).userAnswer)⟩] := by
  obtain ⟨os⟩ := sm
  cases hsm
  simp only [process_topic, add_to_chat_history]
  rw [if_pos hskip]
  refine ⟨_, rfl, ?_, ?_⟩
  · intro pn tn
    simp [get_follow_up_count]
  · simp [pillar_transcript, get_chat_history, alGet_alSet_self]

/-- Witness for skip_terminates_topic: scenario B — the user answers "skip",
the classifier's oracle says SKIP, and the topic ends after one exchange with
the counter still 0. -/
theorem skip_terminates_topic_witness :
    is_skip_response (clean_user_input (strTrim (demoSkipEvents 0).userAnswer))
      (demoSkipEvents 0).skipOracle = true ∧
    ∃ sm2, process_topic "app" "budget_constraints" false demoSkipEvents max_follow_ups 0
        init_state = .ok sm2 ∧
      (∀ pn tn, get_follow_up_count sm2 pn tn = get_follow_up_count init_state pn tn) ∧
      pillar_transcript sm2 "app" =
        pillar_transcript init_state "app" ++
          [⟨"assistant", call_agent (demoSkipEvents 0).genResult⟩,
           ⟨"user", clean_user_input (strTrim (demoSkipEvents 0).userAnswer)⟩] :=
  ⟨by decide,
   skip_terminates_topic "app" "budget_constraints" false demoSkipEvents 2 0 init_state _
     rfl (by decide)⟩

theorem process_topic_events_congr (pillar topic : String) (pa : Bool) :
    ∀ (remaining fuc : Nat) (sm : StateManager) (ev1 ev2 : Nat → IterEvent),
      (∀ i, fuc ≤ i → ev1 i = ev2 i) →
      process_topic pillar topic pa ev1 remaining fuc sm =
        process_topic pillar topic pa ev2 remaining fuc sm := by
  intro remaining
  induction remaining with
  | zero => intro fuc sm ev1 ev2 hag; rfl
  | succ r ih =>
    intro fuc sm ev1 ev2 hag
    have h0 : ev1 fuc = ev2 fuc := hag fuc (le_refl fuc)
    have hrec : ∀ sm4, process_topic pillar topic pa ev1 r (fuc + 1) sm4 =
        process_topic pillar topic pa ev2 r (fuc + 1) sm4 :=
      fun sm4 => ih (fuc + 1) sm4 ev1 ev2 (fun i hi => hag i (Nat.le_of_succ_le hi))
    simp only [process_topic, h0]
    repeat first | rfl | (exact hrec _) | split

/-- C4: when the generation oracle call of an iteration fails, the assistant
turn appended by that iteration equals the fixed fallback apology string, no
exception propagates to the caller (on an initialized state the loop still
returns a successful result), and the loop proceeds exactly as if the oracle
had answered with the apology text — the user is still prompted and the
skip/follow-up classifiers still run on the subsequent user answer. -/
theorem oracle_failure_fallback (pillar topic : String) (pa : Bool)
    (ev : Nat → IterEvent) (remaining fuc : Nat) (sm : StateManager)
    (s : InterviewState) (e : String)
    (hsm : sm.state = some s)
    (herr : (ev fuc).genResult = .error e) :
    call_agent (ev fuc).genResult = fallbackMessage ∧
    process_topic pillar topic pa ev (remaining + 1) fuc sm =
      process_topic pillar topic pa (withFallbackAt ev fuc) (remaining + 1) fuc sm ∧
    (∃ sm', process_topic pillar topic pa ev (remaining + 1) fuc sm = .ok sm') := by
  have hca : call_agent (ev fuc).genResult = fallbackMessage := by
    rw [herr]
    rfl
  have hev : withFallbackAt ev fuc fuc = { ev fuc with genResult := .ok fallbackMessage } := by
    simp [withFallbackAt]
  refine ⟨hca, ?_, ?_⟩
  · have hrec : ∀ sm4, process_topic pillar topic pa ev remaining (fuc + 1) sm4 =
        process_topic pillar topic pa (withFallbackAt ev fuc) remaining (fuc + 1) sm4 :=
      fun sm4 => process_topic_events_congr pillar topic pa remaining (fuc + 1) sm4 ev
        (withFallbackAt ev fuc)
        (fun i hi => by
          simp only [withFallbackAt]
          rw [if_neg (by omega)])
    simp only [process_topic, hev, herr, call_agent]
    repeat first | rfl | (exact hrec _) | split
  · obtain ⟨sm', s', hs', _⟩ :=
      process_topic_total pillar topic pa ev (remaining + 1) fuc sm s hsm
    exact ⟨sm', hs'⟩

/-- Witness for oracle_failure_fallback: a concrete run whose generation oracle
raises on every call substitutes the apology string and completes normally. -/
theorem oracle_failure_fallback_witness :
    call_agent (demoErrEvents 0).genResult = fallbackMessage ∧
    process_topic "app" "t" false demoErrEvents max_follow_ups 0 init_state =
      process_topic "app" "t" false (withFallbackAt demoErrEvents 0) max_follow_ups 0
        init_state ∧
    (∃ sm', process_topic "app" "t" false demoErrEvents max_follow_ups 0 init_state =
      .ok sm') :=
  oracle_failure_fallback "app" "t" false demoErrEvents 2 0 init_state _ "OracleError" rfl rfl
